import Mathlib

/-!
# User-turn aggregation state machine

A shallow embedding of `UserTurnAggregator` (src/agent_server/pipecat/
user_turn_aggregator.py) and its per-state handlers (src/agent_server/
pipecat/state_handlers.py).

The aggregator consumes a stream of frames — `UserStartedSpeakingFrame`,
`InterimTranscriptionFrame`, `TranscriptionFrame`, `UserStoppedSpeakingFrame`,
plus arbitrary pass-through frames — each tagged with a flow direction, and
emits `UserTurnMessageFrame` carrying a complete user utterance.  The Python
object mutates four fields (`_state`, `_aggregation`, `_pending_interim`,
`_done_received_at`) and calls `time.monotonic()`; here the state is an
explicit structure, frame processing is a pure function returning the new
state and the list of pushed frames in push order, and the monotonic clock
reading at the moment an event is processed is an explicit `Int` parameter.
-/

/-- Frame kinds relevant to the aggregator.  The four recognized input frame
classes and the emitted `UserTurnMessageFrame` are modelled by name; every
other frame class (the open pass-through set) is `OtherFrame` with an opaque
tag. -/
inductive Frame where
  | UserStartedSpeakingFrame : Frame
  | InterimTranscriptionFrame (text : String) : Frame
  | TranscriptionFrame (text : String) : Frame
  | UserStoppedSpeakingFrame : Frame
  | UserTurnMessageFrame (text : String) : Frame
  | OtherFrame (tag : Nat) : Frame
deriving DecidableEq, Repr

/-- Frame flow direction, mirroring `FrameDirection`. -/
inductive FrameDirection where
  | DOWNSTREAM : FrameDirection
  | UPSTREAM : FrameDirection
deriving DecidableEq, Repr

/-- The aggregator state machine states, mirroring `UserTurnState`. -/
inductive UserTurnState where
  | IDLE : UserTurnState
  | SPEAKING_AWAITING_TRANSCRIPT : UserTurnState
  | SPEAKING_RECEIVED_TRANSCRIPT : UserTurnState
  | DONE_AWAITING_TRANSCRIPT : UserTurnState
deriving DecidableEq, Repr

/-- The mutable fields of a `UserTurnAggregator` instance, plus the
configuration value `_aggregation_timeout` fixed at construction. -/
structure UserTurnAggregator where
  state : UserTurnState
  aggregation : String
  pending_interim : Bool
  done_received_at : Option Int
  aggregation_timeout : Int
deriving DecidableEq, Repr

/-- A frame pushed by the aggregator, with the direction it is pushed in. -/
abbrev PushedFrame := Frame × FrameDirection

/-- `reset_state`: return to IDLE with empty buffer and cleared flags. -/
def reset_state (a : UserTurnAggregator) : UserTurnAggregator :=
  { a with
    state := UserTurnState.IDLE
    aggregation := ""
    pending_interim := false
    done_received_at := none }

/-- `transition_to`: change only the state field. -/
def transition_to (a : UserTurnAggregator) (s : UserTurnState) : UserTurnAggregator :=
  { a with state := s }

/-- `append_text`: append a fragment to the aggregation buffer. -/
def append_text (a : UserTurnAggregator) (t : String) : UserTurnAggregator :=
  { a with aggregation := a.aggregation ++ t }

/-- `set_pending_interim`. -/
def set_pending_interim (a : UserTurnAggregator) (p : Bool) : UserTurnAggregator :=
  { a with pending_interim := p }

/-- `has_pending_interim`. -/
def has_pending_interim (a : UserTurnAggregator) : Bool :=
  a.pending_interim

/-- `mark_done_received`: record the current monotonic clock reading. -/
def mark_done_received (a : UserTurnAggregator) (now : Int) : UserTurnAggregator :=
  { a with done_received_at := some now }

/-- `push_turn_message`: if the aggregation buffer is non-empty, push a
`UserTurnMessageFrame` carrying it (downstream, the default push direction);
then reset the state either way. -/
def push_turn_message (a : UserTurnAggregator) : UserTurnAggregator × List PushedFrame :=
  if a.aggregation = "" then
    (reset_state a, [])
  else
    (reset_state a, [(Frame.UserTurnMessageFrame a.aggregation, FrameDirection.DOWNSTREAM)])

/-- `IdleHandler.handle`: dispatch a frame in the IDLE state.  Started
speech opens a turn (relaying the frame); transcripts are anomalous and
consumed; stopped speech is anomalous and relayed; others pass through. -/
def idle_handle (a : UserTurnAggregator) (f : Frame) (dir : FrameDirection) :
    UserTurnAggregator × List PushedFrame :=
  match f with
  | Frame.UserStartedSpeakingFrame =>
      (transition_to a UserTurnState.SPEAKING_AWAITING_TRANSCRIPT, [(f, dir)])
  | Frame.InterimTranscriptionFrame _ => (a, [])
  | Frame.TranscriptionFrame _ => (a, [])
  | Frame.UserStoppedSpeakingFrame => (a, [(f, dir)])
  | _ => (a, [(f, dir)])

/-- `SpeakingAwaitingTranscriptHandler.handle`: user speaking, no transcript
fragment yet. -/
def speaking_awaiting_handle (a : UserTurnAggregator) (f : Frame) (dir : FrameDirection)
    (now : Int) : UserTurnAggregator × List PushedFrame :=
  match f with
  | Frame.UserStartedSpeakingFrame => (a, [(f, dir)])
  | Frame.InterimTranscriptionFrame _ => (set_pending_interim a true, [])
  | Frame.TranscriptionFrame t =>
      (transition_to (set_pending_interim (append_text a t) false)
        UserTurnState.SPEAKING_RECEIVED_TRANSCRIPT, [])
  | Frame.UserStoppedSpeakingFrame =>
      if has_pending_interim a then
        (mark_done_received (transition_to a UserTurnState.DONE_AWAITING_TRANSCRIPT) now,
          [(f, dir)])
      else
        (reset_state a, [(f, dir)])
  | _ => (a, [(f, dir)])

/-- `SpeakingReceivedTranscriptHandler.handle`: user speaking, at least one
fragment buffered. -/
def speaking_received_handle (a : UserTurnAggregator) (f : Frame) (dir : FrameDirection)
    (now : Int) : UserTurnAggregator × List PushedFrame :=
  match f with
  | Frame.UserStartedSpeakingFrame => (a, [(f, dir)])
  | Frame.InterimTranscriptionFrame _ => (set_pending_interim a true, [])
  | Frame.TranscriptionFrame t => (set_pending_interim (append_text a t) false, [])
  | Frame.UserStoppedSpeakingFrame =>
      if has_pending_interim a then
        (mark_done_received (transition_to a UserTurnState.DONE_AWAITING_TRANSCRIPT) now,
          [(f, dir)])
      else
        let r := push_turn_message a
        (r.1, r.2 ++ [(f, dir)])
  | _ => (a, [(f, dir)])

/-- `DoneAwaitingTranscriptHandler.handle`: user stopped, awaiting the final
transcript for a pending interim. -/
def done_awaiting_handle (a : UserTurnAggregator) (f : Frame) (dir : FrameDirection) :
    UserTurnAggregator × List PushedFrame :=
  match f with
  | Frame.UserStartedSpeakingFrame =>
      let r := push_turn_message a
      (transition_to r.1 UserTurnState.SPEAKING_AWAITING_TRANSCRIPT, r.2 ++ [(f, dir)])
  | Frame.InterimTranscriptionFrame _ => (set_pending_interim a true, [])
  | Frame.TranscriptionFrame t =>
      push_turn_message (set_pending_interim (append_text a t) false)
  | Frame.UserStoppedSpeakingFrame => (a, [(f, dir)])
  | _ => (a, [(f, dir)])

/-- `StateHandler.handle` dispatch: route the frame to the current state's
handler. -/
def handle (a : UserTurnAggregator) (f : Frame) (dir : FrameDirection) (now : Int) :
    UserTurnAggregator × List PushedFrame :=
  match a.state with
  | UserTurnState.IDLE => idle_handle a f dir
  | UserTurnState.SPEAKING_AWAITING_TRANSCRIPT => speaking_awaiting_handle a f dir now
  | UserTurnState.SPEAKING_RECEIVED_TRANSCRIPT => speaking_received_handle a f dir now
  | UserTurnState.DONE_AWAITING_TRANSCRIPT => done_awaiting_handle a f dir

/-- `_check_timeout`: in DONE_AWAITING_TRANSCRIPT, if the elapsed time since
`done_received_at` has reached `aggregation_timeout`, flush via
`push_turn_message`. -/
def check_timeout (a : UserTurnAggregator) (now : Int) :
    UserTurnAggregator × List PushedFrame :=
  match a.done_received_at with
  | none => (a, [])
  | some d =>
      if now - d ≥ a.aggregation_timeout then push_turn_message a else (a, [])

/-- `process_frame`: upstream frames pass through unchanged; otherwise run the
timeout check when in DONE_AWAITING_TRANSCRIPT, then delegate to the (possibly
reset) current state's handler. -/
def process_frame (a : UserTurnAggregator) (f : Frame) (dir : FrameDirection)
    (now : Int) : UserTurnAggregator × List PushedFrame :=
  if dir = FrameDirection.UPSTREAM then
    (a, [(f, FrameDirection.UPSTREAM)])
  else
    let r1 :=
      if a.state = UserTurnState.DONE_AWAITING_TRANSCRIPT then check_timeout a now
      else (a, [])
    let r2 := handle r1.1 f dir now
    (r2.1, r1.2 ++ r2.2)

/-- A freshly constructed aggregator: `__init__` stores the timeout and calls
`reset_state`. -/
def initAggregator (c : Int) : UserTurnAggregator :=
  ⟨UserTurnState.IDLE, "", false, none, c⟩

/-- One delivered event: a frame, its flow direction, and the monotonic clock
reading at the moment it is processed. -/
structure Evt where
  frame : Frame
  dir : FrameDirection
  now : Int
deriving DecidableEq, Repr

/-- Run the aggregator over a finite event sequence, collecting all pushed
frames in push order. -/
def runAgg (a : UserTurnAggregator) : List Evt → UserTurnAggregator × List PushedFrame
  | [] => (a, [])
  | e :: rest =>
      let r := process_frame a e.frame e.dir e.now
      let r2 := runAgg r.1 rest
      (r2.1, r.2 ++ r2.2)

/-- The texts of the `UserTurnMessageFrame`s among a list of pushed frames. -/
def turnCompleteTexts (outs : List PushedFrame) : List String :=
  outs.filterMap (fun p =>
    match p.1 with
    | Frame.UserTurnMessageFrame t => some t
    | _ => none)

/-- Concatenation of a list of fragments, in order, with no separators. -/
def concatFragments (l : List String) : String :=
  l.foldr (fun s acc => s ++ acc) ""

/-- Input frame kinds per the aggregator's external interface: the four
recognized speech events plus opaque pass-through frames;
`UserTurnMessageFrame` is the aggregator's output kind. -/
def isInputFrame : Frame → Bool
  | Frame.UserTurnMessageFrame _ => false
  | _ => true

open Frame FrameDirection UserTurnState

/-! ## Helper lemmas -/

theorem turnCompleteTexts_append (l1 l2 : List PushedFrame) :
    turnCompleteTexts (l1 ++ l2) = turnCompleteTexts l1 ++ turnCompleteTexts l2 := by
  simp [turnCompleteTexts]

theorem push_turn_message_fst (a : UserTurnAggregator) :
    (push_turn_message a).1 = reset_state a := by
  unfold push_turn_message
  split <;> rfl

theorem push_turn_message_texts (a : UserTurnAggregator) :
    turnCompleteTexts (push_turn_message a).2
      = if a.aggregation = "" then [] else [a.aggregation] := by
  unfold push_turn_message
  split <;> simp_all [turnCompleteTexts]

/-! ## C7: upstream pass-through -/

/-- C7: a frame delivered in the upstream direction is relayed unchanged in
every state, the aggregator state is untouched, and no turn message is
emitted. -/
theorem upstream_passthrough_invariance (a : UserTurnAggregator) (f : Frame) (now : Int) :
    process_frame a f FrameDirection.UPSTREAM now = (a, [(f, FrameDirection.UPSTREAM)]) := by
  rfl

/-! ## C6: empty-turn suppression -/

/-- C6: from IDLE, SpeechStarted followed by SpeechStopped with no transcripts
in between relays both frames, emits no turn message, and returns to IDLE. -/
theorem empty_turn_suppression (c t1 t2 : Int) :
    runAgg (initAggregator c)
      [⟨UserStartedSpeakingFrame, DOWNSTREAM, t1⟩,
       ⟨UserStoppedSpeakingFrame, DOWNSTREAM, t2⟩]
    = (initAggregator c,
       [(UserStartedSpeakingFrame, DOWNSTREAM),
        (UserStoppedSpeakingFrame, DOWNSTREAM)]) := by
  rfl

/-! ## C1: race resolution -/

/-- C1: from IDLE, the sequence SpeechStarted, InterimTranscript "hell",
SpeechStopped, FinalTranscript "hello" — with the final transcript arriving
before the aggregation timeout elapses — emits no turn message during the
first three events, emits exactly one `UserTurnMessageFrame "hello"` while
processing the final transcript, and ends in IDLE. -/
theorem race_resolution_single_emission (c t1 t2 t3 t4 : Int) (h : t4 - t3 < c) :
    runAgg (initAggregator c)
      [⟨UserStartedSpeakingFrame, DOWNSTREAM, t1⟩,
       ⟨InterimTranscriptionFrame "hell", DOWNSTREAM, t2⟩,
       ⟨UserStoppedSpeakingFrame, DOWNSTREAM, t3⟩]
      = (⟨UserTurnState.DONE_AWAITING_TRANSCRIPT, "", true, some t3, c⟩,
         [(UserStartedSpeakingFrame, DOWNSTREAM), (UserStoppedSpeakingFrame, DOWNSTREAM)])
    ∧ runAgg (initAggregator c)
      [⟨UserStartedSpeakingFrame, DOWNSTREAM, t1⟩,
       ⟨InterimTranscriptionFrame "hell", DOWNSTREAM, t2⟩,
       ⟨UserStoppedSpeakingFrame, DOWNSTREAM, t3⟩,
       ⟨TranscriptionFrame "hello", DOWNSTREAM, t4⟩]
      = (initAggregator c,
         [(UserStartedSpeakingFrame, DOWNSTREAM),
          (UserStoppedSpeakingFrame, DOWNSTREAM),
          (UserTurnMessageFrame "hello", DOWNSTREAM)]) := by
  have hn : ¬ (t4 - t3 ≥ c) := not_le.mpr h
  refine ⟨rfl, ?_⟩
  simp [runAgg, process_frame, handle, check_timeout, idle_handle, speaking_awaiting_handle,
    done_awaiting_handle, push_turn_message, append_text, set_pending_interim,
    has_pending_interim, mark_done_received, transition_to, reset_state, initAggregator, hn]

/-- Witness for C1 at concrete inputs. -/
theorem race_resolution_single_emission_witness :
    (0 : Int) - 0 < 1
    ∧ (runAgg (initAggregator 1)
        [⟨UserStartedSpeakingFrame, DOWNSTREAM, 0⟩,
         ⟨InterimTranscriptionFrame "hell", DOWNSTREAM, 0⟩,
         ⟨UserStoppedSpeakingFrame, DOWNSTREAM, 0⟩]
        = (⟨UserTurnState.DONE_AWAITING_TRANSCRIPT, "", true, some 0, 1⟩,
           [(UserStartedSpeakingFrame, DOWNSTREAM), (UserStoppedSpeakingFrame, DOWNSTREAM)])
      ∧ runAgg (initAggregator 1)
        [⟨UserStartedSpeakingFrame, DOWNSTREAM, 0⟩,
         ⟨InterimTranscriptionFrame "hell", DOWNSTREAM, 0⟩,
         ⟨UserStoppedSpeakingFrame, DOWNSTREAM, 0⟩,
         ⟨TranscriptionFrame "hello", DOWNSTREAM, 0⟩]
        = (initAggregator 1,
           [(UserStartedSpeakingFrame, DOWNSTREAM),
            (UserStoppedSpeakingFrame, DOWNSTREAM),
            (UserTurnMessageFrame "hello", DOWNSTREAM)])) :=
  ⟨by decide, race_resolution_single_emission 1 0 0 0 0 (by decide)⟩

/-! ## C5: mid-wait new turn -/

/-- C5: in DONE_AWAITING_TRANSCRIPT with a non-empty buffer, a SpeechStarted
frame causes the old buffer to be emitted as a turn message, then the frame is
relayed, and the machine moves to SPEAKING_AWAITING_TRANSCRIPT with buffer and
flags cleared (whether or not the timeout already expired). -/
theorem midwait_new_turn_flush (a : UserTurnAggregator) (now : Int)
    (h1 : a.state = UserTurnState.DONE_AWAITING_TRANSCRIPT)
    (h2 : a.aggregation ≠ "") :
    process_frame a UserStartedSpeakingFrame FrameDirection.DOWNSTREAM now
      = (transition_to (reset_state a) UserTurnState.SPEAKING_AWAITING_TRANSCRIPT,
         [(UserTurnMessageFrame a.aggregation, DOWNSTREAM),
          (UserStartedSpeakingFrame, DOWNSTREAM)]) := by
  simp only [process_frame, h1]
  cases hd : a.done_received_at with
  | none =>
      simp [check_timeout, hd, handle, h1, done_awaiting_handle, push_turn_message, h2,
        reset_state, transition_to]
  | some d =>
      by_cases ht : now - d ≥ a.aggregation_timeout
      · simp [check_timeout, hd, ht, handle, h1, push_turn_message, h2, reset_state,
          transition_to, idle_handle]
      · simp [check_timeout, hd, ht, handle, h1, done_awaiting_handle, push_turn_message, h2,
          reset_state, transition_to]

/-- Witness for C5 at a concrete aggregator state. -/
theorem midwait_new_turn_flush_witness :
    process_frame ⟨UserTurnState.DONE_AWAITING_TRANSCRIPT, "old turn", true, some 0, 1⟩
        UserStartedSpeakingFrame FrameDirection.DOWNSTREAM 0
      = (transition_to
           (reset_state ⟨UserTurnState.DONE_AWAITING_TRANSCRIPT, "old turn", true, some 0, 1⟩)
           UserTurnState.SPEAKING_AWAITING_TRANSCRIPT,
         [(UserTurnMessageFrame "old turn", DOWNSTREAM),
          (UserStartedSpeakingFrame, DOWNSTREAM)]) :=
  midwait_new_turn_flush ⟨UserTurnState.DONE_AWAITING_TRANSCRIPT, "old turn", true, some 0, 1⟩
    0 rfl (by decide)

/-! ## C10: late final transcript is dropped -/

/-- C10: in DONE_AWAITING_TRANSCRIPT, a final transcript arriving downstream
at or after the timeout deadline triggers the flush first (emitting the
buffered partial text when non-empty, nothing when empty) and resets the
state; the transcript is then handled — and discarded — by the IDLE state:
its text appears in no output and the frame is not relayed. -/
theorem late_final_after_timeout_dropped (a : UserTurnAggregator) (t : String) (d now : Int)
    (h1 : a.state = UserTurnState.DONE_AWAITING_TRANSCRIPT)
    (h2 : a.done_received_at = some d)
    (h3 : now - d ≥ a.aggregation_timeout) :
    process_frame a (TranscriptionFrame t) FrameDirection.DOWNSTREAM now
      = (reset_state a,
         if a.aggregation = "" then []
         else [(UserTurnMessageFrame a.aggregation, DOWNSTREAM)]) := by
  simp only [process_frame, h1]
  by_cases hagg : a.aggregation = "" <;>
    simp [check_timeout, h2, h3, push_turn_message, hagg, handle, reset_state, idle_handle]

/-- Witness for C10 at a concrete aggregator state. -/
theorem late_final_after_timeout_dropped_witness :
    process_frame ⟨UserTurnState.DONE_AWAITING_TRANSCRIPT, "partial message", true, some 0, 1⟩
        (TranscriptionFrame "hello") FrameDirection.DOWNSTREAM 10
      = (reset_state ⟨UserTurnState.DONE_AWAITING_TRANSCRIPT, "partial message", true, some 0, 1⟩,
         if ("partial message" : String) = "" then []
         else [(UserTurnMessageFrame "partial message", DOWNSTREAM)]) :=
  late_final_after_timeout_dropped
    ⟨UserTurnState.DONE_AWAITING_TRANSCRIPT, "partial message", true, some 0, 1⟩
    "hello" 0 10 rfl rfl (by decide)

/-! ## C3: timeout flush -/

/-- C3 (counterexample to the claim as stated): a reachable
DONE_AWAITING_TRANSCRIPT state with buffer "partial message" and an expired
timeout, to which an upstream-direction frame is delivered: the frame is
relayed but no turn message is emitted and the state is not reset to IDLE, so
"delivering any subsequent event" does not trigger the flush. -/
theorem timeout_flush_upstream_counterexample :
    (runAgg (initAggregator 1)
        [⟨UserStartedSpeakingFrame, DOWNSTREAM, 0⟩,
         ⟨TranscriptionFrame "partial message", DOWNSTREAM, 0⟩,
         ⟨InterimTranscriptionFrame "x", DOWNSTREAM, 0⟩,
         ⟨UserStoppedSpeakingFrame, DOWNSTREAM, 0⟩]).1
      = ⟨UserTurnState.DONE_AWAITING_TRANSCRIPT, "partial message", true, some 0, 1⟩
    ∧ (10 : Int) - 0 ≥ 1
    ∧ process_frame ⟨UserTurnState.DONE_AWAITING_TRANSCRIPT, "partial message", true, some 0, 1⟩
        (OtherFrame 0) FrameDirection.UPSTREAM 10
      = (⟨UserTurnState.DONE_AWAITING_TRANSCRIPT, "partial message", true, some 0, 1⟩,
         [(OtherFrame 0, UPSTREAM)]) := by
  refine ⟨by decide, by decide, rfl⟩

/-- C3 (amended): in DONE_AWAITING_TRANSCRIPT with a non-empty buffer and an
expired timeout, any event delivered in the downstream direction first causes
a turn message carrying exactly the buffered text and a reset to IDLE, and
only then is the event dispatched to the (now IDLE) state's handler. -/
theorem timeout_flush_before_dispatch (a : UserTurnAggregator) (f : Frame) (d now : Int)
    (h1 : a.state = UserTurnState.DONE_AWAITING_TRANSCRIPT)
    (h2 : a.aggregation ≠ "")
    (h3 : a.done_received_at = some d)
    (h4 : now - d ≥ a.aggregation_timeout) :
    (reset_state a).state = UserTurnState.IDLE
    ∧ process_frame a f FrameDirection.DOWNSTREAM now
      = ((handle (reset_state a) f FrameDirection.DOWNSTREAM now).1,
         (UserTurnMessageFrame a.aggregation, DOWNSTREAM)
           :: (handle (reset_state a) f FrameDirection.DOWNSTREAM now).2) := by
  refine ⟨rfl, ?_⟩
  simp [process_frame, h1, check_timeout, h3, h4, push_turn_message, h2]

/-- Witness for the amended C3 at a concrete state and event. -/
theorem timeout_flush_before_dispatch_witness :
    (reset_state ⟨UserTurnState.DONE_AWAITING_TRANSCRIPT, "partial message", true, some 0, 1⟩).state
      = UserTurnState.IDLE
    ∧ process_frame ⟨UserTurnState.DONE_AWAITING_TRANSCRIPT, "partial message", true, some 0, 1⟩
        (OtherFrame 7) FrameDirection.DOWNSTREAM 10
      = ((handle
            (reset_state ⟨UserTurnState.DONE_AWAITING_TRANSCRIPT, "partial message", true, some 0, 1⟩)
            (OtherFrame 7) FrameDirection.DOWNSTREAM 10).1,
         (UserTurnMessageFrame "partial message", DOWNSTREAM)
           :: (handle
                (reset_state ⟨UserTurnState.DONE_AWAITING_TRANSCRIPT, "partial message", true, some 0, 1⟩)
                (OtherFrame 7) FrameDirection.DOWNSTREAM 10).2) :=
  timeout_flush_before_dispatch
    ⟨UserTurnState.DONE_AWAITING_TRANSCRIPT, "partial message", true, some 0, 1⟩
    (OtherFrame 7) 0 10 rfl (by decide) rfl (by decide)

/-! ## Reachability invariants (C8, C9) -/

/-- Invariant preserved by every processing step: the done timestamp is
present exactly in DONE_AWAITING_TRANSCRIPT, and that state always has a
pending interim. -/
def StateInv (a : UserTurnAggregator) : Prop :=
  (a.done_received_at.isSome ↔ a.state = UserTurnState.DONE_AWAITING_TRANSCRIPT)
  ∧ (a.state = UserTurnState.DONE_AWAITING_TRANSCRIPT → a.pending_interim = true)

theorem reset_state_inv (a : UserTurnAggregator) : StateInv (reset_state a) := by
  simp [StateInv, reset_state]

theorem handle_inv (a : UserTurnAggregator) (f : Frame) (dir : FrameDirection) (now : Int)
    (h : StateInv a) : StateInv (handle a f dir now).1 := by
  obtain ⟨h1, h2⟩ := h
  cases hst : a.state <;> cases f <;> cases hp : a.pending_interim <;>
    simp_all [handle, idle_handle, speaking_awaiting_handle, speaking_received_handle,
      done_awaiting_handle, push_turn_message, reset_state, transition_to, append_text,
      set_pending_interim, has_pending_interim, mark_done_received, StateInv] <;>
    split <;> simp_all

theorem process_frame_inv (a : UserTurnAggregator) (f : Frame) (dir : FrameDirection)
    (now : Int) (h : StateInv a) : StateInv (process_frame a f dir now).1 := by
  cases dir
  case UPSTREAM => exact h
  case DOWNSTREAM =>
    have hproc : (process_frame a f FrameDirection.DOWNSTREAM now).1
        = (handle
            (if a.state = UserTurnState.DONE_AWAITING_TRANSCRIPT then check_timeout a now
             else (a, [])).1
            f FrameDirection.DOWNSTREAM now).1 := rfl
    rw [hproc]
    by_cases hst : a.state = UserTurnState.DONE_AWAITING_TRANSCRIPT
    · rw [if_pos hst]
      cases hd : a.done_received_at with
      | none =>
          have he : (check_timeout a now).1 = a := by simp [check_timeout, hd]
          rw [he]; exact handle_inv a f _ now h
      | some d =>
          by_cases ht : now - d ≥ a.aggregation_timeout
          · have he : (check_timeout a now).1 = reset_state a := by
              simp [check_timeout, hd, ht, push_turn_message_fst]
            rw [he]; exact handle_inv _ f _ now (reset_state_inv a)
          · have he : (check_timeout a now).1 = a := by simp [check_timeout, hd, ht]
            rw [he]; exact handle_inv a f _ now h
    · rw [if_neg hst]; exact handle_inv a f _ now h

theorem runAgg_inv (evs : List Evt) :
    ∀ a : UserTurnAggregator, StateInv a → StateInv (runAgg a evs).1 := by
  induction evs with
  | nil => intro a h; exact h
  | cons e rest ih =>
      intro a h
      exact ih _ (process_frame_inv a e.frame e.dir e.now h)

/-- C8: in every state reachable from the freshly constructed aggregator,
`done_received_at` is present exactly while the machine is in
DONE_AWAITING_TRANSCRIPT (it is set on entering that state and cleared on
every exit from it). -/
theorem done_received_at_discipline (c : Int) (evs : List Evt) :
    ((runAgg (initAggregator c) evs).1.done_received_at.isSome
      ↔ (runAgg (initAggregator c) evs).1.state = UserTurnState.DONE_AWAITING_TRANSCRIPT) :=
  (runAgg_inv evs (initAggregator c) ⟨by simp [initAggregator], by simp [initAggregator]⟩).1

/-- C9 (counterexample to the claim as stated): DONE_AWAITING_TRANSCRIPT is
reachable with an empty aggregation buffer — an interim with no final
transcript before SpeechStopped gets there from IDLE. -/
theorem done_awaiting_empty_buffer_counterexample :
    (runAgg (initAggregator 1)
        [⟨UserStartedSpeakingFrame, DOWNSTREAM, 0⟩,
         ⟨InterimTranscriptionFrame "hell", DOWNSTREAM, 0⟩,
         ⟨UserStoppedSpeakingFrame, DOWNSTREAM, 0⟩]).1.state
      = UserTurnState.DONE_AWAITING_TRANSCRIPT
    ∧ (runAgg (initAggregator 1)
        [⟨UserStartedSpeakingFrame, DOWNSTREAM, 0⟩,
         ⟨InterimTranscriptionFrame "hell", DOWNSTREAM, 0⟩,
         ⟨UserStoppedSpeakingFrame, DOWNSTREAM, 0⟩]).1.aggregation
      = "" := by
  exact ⟨rfl, rfl⟩

/-- C9 (amended): in every reachable DONE_AWAITING_TRANSCRIPT state the
`pending_interim` flag is set (the state is only entered after an interim was
seen); the aggregation buffer, however, may be empty there. -/
theorem done_awaiting_pending_interim (c : Int) (evs : List Evt)
    (h : (runAgg (initAggregator c) evs).1.state = UserTurnState.DONE_AWAITING_TRANSCRIPT) :
    (runAgg (initAggregator c) evs).1.pending_interim = true :=
  (runAgg_inv evs (initAggregator c) ⟨by simp [initAggregator], by simp [initAggregator]⟩).2 h

/-- Witness for the amended C9 at a concrete event sequence. -/
theorem done_awaiting_pending_interim_witness :
    (runAgg (initAggregator 1)
        [⟨UserStartedSpeakingFrame, DOWNSTREAM, 0⟩,
         ⟨InterimTranscriptionFrame "hell", DOWNSTREAM, 0⟩,
         ⟨UserStoppedSpeakingFrame, DOWNSTREAM, 0⟩]).1.pending_interim = true :=
  done_awaiting_pending_interim 1
    [⟨UserStartedSpeakingFrame, DOWNSTREAM, 0⟩,
     ⟨InterimTranscriptionFrame "hell", DOWNSTREAM, 0⟩,
     ⟨UserStoppedSpeakingFrame, DOWNSTREAM, 0⟩] (by decide)

/-! ## C2: emission discipline -/

theorem idle_handle_agg (a : UserTurnAggregator) (f : Frame) (dir : FrameDirection) :
    (idle_handle a f dir).1.aggregation = a.aggregation := by
  cases f <;> simp [idle_handle, transition_to]

theorem idle_handle_texts (a : UserTurnAggregator) (f : Frame) (dir : FrameDirection)
    (hf : isInputFrame f = true) :
    turnCompleteTexts (idle_handle a f dir).2 = [] := by
  cases f <;> simp_all [idle_handle, turnCompleteTexts, isInputFrame]

theorem handle_emission (a : UserTurnAggregator) (f : Frame) (dir : FrameDirection)
    (now : Int) (hf : isInputFrame f = true) :
    (turnCompleteTexts (handle a f dir now).2).length ≤ 1
    ∧ ∀ t ∈ turnCompleteTexts (handle a f dir now).2,
        t ≠ "" ∧ (handle a f dir now).1.aggregation = "" := by
  cases hst : a.state <;> cases f <;> cases hp : a.pending_interim <;>
    simp_all [handle, idle_handle, speaking_awaiting_handle, speaking_received_handle,
      done_awaiting_handle, push_turn_message, reset_state, transition_to, append_text,
      set_pending_interim, has_pending_interim, mark_done_received, turnCompleteTexts,
      isInputFrame] <;>
    split <;> simp_all

theorem process_frame_emission (a : UserTurnAggregator) (f : Frame) (dir : FrameDirection)
    (now : Int) (hf : isInputFrame f = true) :
    (turnCompleteTexts (process_frame a f dir now).2).length ≤ 1
    ∧ ∀ t ∈ turnCompleteTexts (process_frame a f dir now).2,
        t ≠ "" ∧ (process_frame a f dir now).1.aggregation = "" := by
  cases dir
  case UPSTREAM => cases f <;> simp_all [process_frame, turnCompleteTexts, isInputFrame]
  case DOWNSTREAM =>
    by_cases hst : a.state = UserTurnState.DONE_AWAITING_TRANSCRIPT
    · cases hd : a.done_received_at with
      | none =>
          have hpf : process_frame a f FrameDirection.DOWNSTREAM now
              = handle a f FrameDirection.DOWNSTREAM now := by
            simp [process_frame, hst, check_timeout, hd]
          rw [hpf]; exact handle_emission a f _ now hf
      | some d =>
          by_cases ht : now - d ≥ a.aggregation_timeout
          · have hpf : process_frame a f FrameDirection.DOWNSTREAM now
                = ((idle_handle (reset_state a) f FrameDirection.DOWNSTREAM).1,
                   (push_turn_message a).2
                     ++ (idle_handle (reset_state a) f FrameDirection.DOWNSTREAM).2) := by
              simp [process_frame, hst, check_timeout, hd, ht, push_turn_message_fst,
                handle, reset_state]
            rw [hpf]
            simp only [turnCompleteTexts_append, idle_handle_texts _ _ _ hf,
              List.append_nil]
            have hagg : (idle_handle (reset_state a) f FrameDirection.DOWNSTREAM).1.aggregation
                = "" := by
              rw [idle_handle_agg]; rfl
            rw [push_turn_message_texts]
            by_cases he : a.aggregation = "" <;> simp [he, hagg]
          · have hpf : process_frame a f FrameDirection.DOWNSTREAM now
                = handle a f FrameDirection.DOWNSTREAM now := by
              simp [process_frame, hst, check_timeout, hd, ht]
            rw [hpf]; exact handle_emission a f _ now hf
    · have hpf : process_frame a f FrameDirection.DOWNSTREAM now
          = handle a f FrameDirection.DOWNSTREAM now := by
        simp [process_frame, hst]
      rw [hpf]; exact handle_emission a f _ now hf

theorem runAgg_emission (evs : List Evt) :
    ∀ a : UserTurnAggregator, (∀ e ∈ evs, isInputFrame e.frame = true) →
      ∀ t ∈ turnCompleteTexts (runAgg a evs).2, t ≠ "" := by
  induction evs with
  | nil => intro a _ t ht; simp [runAgg, turnCompleteTexts] at ht
  | cons e rest ih =>
      intro a hIn t ht
      have hr : runAgg a (e :: rest)
          = ((runAgg (process_frame a e.frame e.dir e.now).1 rest).1,
             (process_frame a e.frame e.dir e.now).2
               ++ (runAgg (process_frame a e.frame e.dir e.now).1 rest).2) := rfl
      rw [hr, turnCompleteTexts_append] at ht
      rcases List.mem_append.mp ht with h1 | h2
      · exact ((process_frame_emission a e.frame e.dir e.now (hIn e (by simp))).2 t h1).1
      · exact ih _ (fun e' he' => hIn e' (List.mem_cons_of_mem _ he')) t h2

/-- C2: every turn message emitted over any run on input frames carries
non-empty text; a single processing step emits at most one turn message and
clears the buffer when it does (so a buffer is never emitted twice); and
`push_turn_message` on an empty buffer silently resets without emitting. -/
theorem emission_discipline :
    (∀ (c : Int) (evs : List Evt), (∀ e ∈ evs, isInputFrame e.frame = true) →
        ∀ t ∈ turnCompleteTexts (runAgg (initAggregator c) evs).2, t ≠ "")
    ∧ (∀ (a : UserTurnAggregator) (f : Frame) (dir : FrameDirection) (now : Int),
        isInputFrame f = true →
          (turnCompleteTexts (process_frame a f dir now).2).length ≤ 1
          ∧ ∀ t ∈ turnCompleteTexts (process_frame a f dir now).2,
              t ≠ "" ∧ (process_frame a f dir now).1.aggregation = "")
    ∧ (∀ a : UserTurnAggregator, a.aggregation = "" →
        push_turn_message a = (reset_state a, [])) := by
  refine ⟨fun c evs h => runAgg_emission evs (initAggregator c) h,
    fun a f dir now hf => process_frame_emission a f dir now hf,
    fun a ha => ?_⟩
  simp [push_turn_message, ha]

/-- Witness for C2 at concrete inputs. -/
theorem emission_discipline_witness :
    ("hello" : String) ≠ ""
    ∧ push_turn_message (initAggregator 1) = (reset_state (initAggregator 1), []) :=
  ⟨emission_discipline.1 1
      [⟨UserStartedSpeakingFrame, DOWNSTREAM, 0⟩,
       ⟨InterimTranscriptionFrame "hell", DOWNSTREAM, 0⟩,
       ⟨UserStoppedSpeakingFrame, DOWNSTREAM, 0⟩,
       ⟨TranscriptionFrame "hello", DOWNSTREAM, 0⟩]
      (by decide) "hello" (by decide),
   emission_discipline.2.2 (initAggregator 1) rfl⟩

/-! ## C4: concatenation order -/

theorem runAgg_append (l1 l2 : List Evt) :
    ∀ a : UserTurnAggregator,
      runAgg a (l1 ++ l2)
        = ((runAgg (runAgg a l1).1 l2).1,
           (runAgg a l1).2 ++ (runAgg (runAgg a l1).1 l2).2) := by
  induction l1 with
  | nil => intro a; simp [runAgg]
  | cons e r ih => intro a; simp [runAgg, ih, List.append_assoc]

theorem runAgg_finals (r : List (String × Int)) :
    ∀ (acc : String) (c : Int),
      runAgg ⟨UserTurnState.SPEAKING_RECEIVED_TRANSCRIPT, acc, false, none, c⟩
        (r.map fun p => ⟨TranscriptionFrame p.1, DOWNSTREAM, p.2⟩)
      = (⟨UserTurnState.SPEAKING_RECEIVED_TRANSCRIPT,
          acc ++ concatFragments (r.map Prod.fst), false, none, c⟩, []) := by
  induction r with
  | nil => intro acc c; simp [runAgg, concatFragments, String.append_empty]
  | cons p rs ih =>
      intro acc c
      have hstep : runAgg ⟨UserTurnState.SPEAKING_RECEIVED_TRANSCRIPT, acc, false, none, c⟩
          ((p :: rs).map fun q => ⟨TranscriptionFrame q.1, DOWNSTREAM, q.2⟩)
          = runAgg ⟨UserTurnState.SPEAKING_RECEIVED_TRANSCRIPT, acc ++ p.1, false, none, c⟩
              (rs.map fun q => ⟨TranscriptionFrame q.1, DOWNSTREAM, q.2⟩) := rfl
      rw [hstep, ih (acc ++ p.1) c]
      simp [concatFragments, String.append_assoc]

theorem runAgg_finals_then_stop (r : List (String × Int)) (acc : String) (c tN : Int)
    (h : acc ++ concatFragments (r.map Prod.fst) ≠ "") :
    runAgg ⟨UserTurnState.SPEAKING_RECEIVED_TRANSCRIPT, acc, false, none, c⟩
      ((r.map fun p => ⟨TranscriptionFrame p.1, DOWNSTREAM, p.2⟩)
        ++ [⟨UserStoppedSpeakingFrame, DOWNSTREAM, tN⟩])
    = (initAggregator c,
       [(UserTurnMessageFrame (acc ++ concatFragments (r.map Prod.fst)), DOWNSTREAM),
        (UserStoppedSpeakingFrame, DOWNSTREAM)]) := by
  rw [runAgg_append, runAgg_finals r acc c]
  simp [runAgg, process_frame, handle, speaking_received_handle, has_pending_interim,
    push_turn_message, h, reset_state, initAggregator]

/-- C4: a turn opened by SpeechStarted, fed any list of final-transcript
fragments (with their arrival clock readings) whose concatenation is
non-empty, then closed by SpeechStopped with no pending interim, emits a
single turn message whose text is exactly the in-order, separator-free
concatenation of the fragments, and returns to IDLE. -/
theorem concatenation_order (c t0 tN : Int) (fs : List (String × Int))
    (h : concatFragments (fs.map Prod.fst) ≠ "") :
    runAgg (initAggregator c)
      (⟨UserStartedSpeakingFrame, DOWNSTREAM, t0⟩
        :: ((fs.map fun p => ⟨TranscriptionFrame p.1, DOWNSTREAM, p.2⟩)
             ++ [⟨UserStoppedSpeakingFrame, DOWNSTREAM, tN⟩]))
    = (initAggregator c,
       [(UserStartedSpeakingFrame, DOWNSTREAM),
        (UserTurnMessageFrame (concatFragments (fs.map Prod.fst)), DOWNSTREAM),
        (UserStoppedSpeakingFrame, DOWNSTREAM)]) := by
  cases fs with
  | nil => simp [concatFragments] at h
  | cons p r =>
      have hJ : concatFragments ((p :: r).map Prod.fst)
          = p.1 ++ concatFragments (r.map Prod.fst) := by
        simp [concatFragments]
      rw [hJ] at h ⊢
      have e1 : runAgg (initAggregator c)
          (⟨UserStartedSpeakingFrame, DOWNSTREAM, t0⟩
            :: (((p :: r).map fun q => ⟨TranscriptionFrame q.1, DOWNSTREAM, q.2⟩)
                 ++ [⟨UserStoppedSpeakingFrame, DOWNSTREAM, tN⟩]))
          = ((runAgg ⟨UserTurnState.SPEAKING_RECEIVED_TRANSCRIPT, "" ++ p.1, false, none, c⟩
                ((r.map fun q => ⟨TranscriptionFrame q.1, DOWNSTREAM, q.2⟩)
                  ++ [⟨UserStoppedSpeakingFrame, DOWNSTREAM, tN⟩])).1,
             (UserStartedSpeakingFrame, DOWNSTREAM)
               :: (runAgg ⟨UserTurnState.SPEAKING_RECEIVED_TRANSCRIPT, "" ++ p.1, false, none, c⟩
                    ((r.map fun q => ⟨TranscriptionFrame q.1, DOWNSTREAM, q.2⟩)
                      ++ [⟨UserStoppedSpeakingFrame, DOWNSTREAM, tN⟩])).2) := rfl
      rw [e1, String.empty_append,
        runAgg_finals_then_stop r p.1 c tN h]

/-- Witness for C4 at the spec's three concrete fragments. -/
theorem concatenation_order_witness :
    concatFragments
        (([("Hello. ", (0 : Int)), ("How are you? ", 0), ("I\x27m fine.", 0)]).map Prod.fst)
      = "Hello. How are you? I\x27m fine."
    ∧ concatFragments
        (([("Hello. ", (0 : Int)), ("How are you? ", 0), ("I\x27m fine.", 0)]).map Prod.fst)
      ≠ ""
    ∧ runAgg (initAggregator 1)
        (⟨UserStartedSpeakingFrame, DOWNSTREAM, 0⟩
          :: ((([("Hello. ", (0 : Int)), ("How are you? ", 0), ("I\x27m fine.", 0)]).map
                fun p => ⟨TranscriptionFrame p.1, DOWNSTREAM, p.2⟩)
               ++ [⟨UserStoppedSpeakingFrame, DOWNSTREAM, 0⟩]))
      = (initAggregator 1,
         [(UserStartedSpeakingFrame, DOWNSTREAM),
          (UserTurnMessageFrame
            (concatFragments
              (([("Hello. ", (0 : Int)), ("How are you? ", 0), ("I\x27m fine.", 0)]).map
                Prod.fst)), DOWNSTREAM),
          (UserStoppedSpeakingFrame, DOWNSTREAM)]) :=
  ⟨by decide, by decide,
   concatenation_order 1 0 0 [("Hello. ", 0), ("How are you? ", 0), ("I\x27m fine.", 0)]
     (by decide)⟩
